import Mathlib

/-!
Shallow embedding of the home-health-monitor probing engine
(`src/export_csv.go`): the per-key sliding-window history store, the
baseline/trend classifier, and the deterministic core of the cycle
orchestration (`runTest`, `runHealthCheck`).

Modelling conventions, fixed once for the whole file:
* Go `time.Time` and `time.Duration` (an `int64` nanosecond count) are
  both modelled as `Int`; Go's truncating `int64` division is `goDiv`.
* the `float64` arithmetic inside `CalculateTrend` is modelled as exact
  rational arithmetic on the integral nanosecond counts it is fed.
* the Go `map[string]*ServiceHistory` is modelled as an association
  list; a live Go map always has pairwise-distinct keys, which appears
  below as a `Nodup` hypothesis where a theorem needs it.
* effects (network probes, file reads/writes, JSON encode/decode) are
  external capabilities; their outcomes enter the model as data
  (`ProbeOutcome`, `LoadInput`, `RawSnapshot`) and the embedded
  functions are the deterministic code around them.
* the store's mutex only serialises access; concurrent cycle execution
  is modelled by threading the store through the tasks in emission
  order.
-/

namespace HHM

/-- Go division on `int64` / `time.Duration` values: truncation toward zero. -/
def goDiv (a b : Int) : Int := Int.tdiv a b

/-- HistoricalDataPoint (export_csv.go:1118): one measurement, a
timestamp and a response time, both integer nanosecond counts. -/
structure HistoricalDataPoint where
  Timestamp : Int
  ResponseTime : Int
  deriving DecidableEq, Repr

/-- ServiceHistory (export_csv.go:1124). -/
structure ServiceHistory where
  ServiceName : String
  DataPoints : List HistoricalDataPoint
  deriving DecidableEq, Repr

/-- HistoryStore (export_csv.go:1130): `Services map[string]*ServiceHistory`
modelled as an association list; the mutex field has no pure content. -/
structure HistoryStore where
  Services : List (String × ServiceHistory)
  deriving DecidableEq, Repr

/-- Map read `hs.Services[k]` (a nil entry is `none`). -/
def getService : List (String × ServiceHistory) → String → Option ServiceHistory
  | [], _ => none
  | (k₀, v) :: rest, k => if k₀ = k then some v else getService rest k

/-- Map write `hs.Services[k] = v`: replace the binding in place, or add it. -/
def setService : List (String × ServiceHistory) → String → ServiceHistory →
    List (String × ServiceHistory)
  | [], k, v => [(k, v)]
  | (k₀, v₀) :: rest, k, v =>
      if k₀ = k then (k, v) :: rest else (k₀, v₀) :: setService rest k v

/-- NewHistoryStore (export_csv.go:1135): an empty map. -/
def NewHistoryStore : HistoryStore := { Services := [] }

/-- AddDataPoint (export_csv.go:1216-1236): create the entry if absent,
append the new measurement, then keep only the last 10 entries when the
length exceeds 10. -/
def HistoryStore.AddDataPoint (hs : HistoryStore) (serviceName : String)
    (timestamp responseTime : Int) : HistoryStore :=
  let history :=
    match getService hs.Services serviceName with
    | none => ({ ServiceName := serviceName, DataPoints := [] } : ServiceHistory)
    | some h => h
  let dps := history.DataPoints ++ [{ Timestamp := timestamp, ResponseTime := responseTime }]
  let dps := if dps.length > 10 then dps.drop (dps.length - 10) else dps
  { Services := setService hs.Services serviceName { history with DataPoints := dps } }

/-- GetBaseline (export_csv.go:1239-1255): `(0, 0)` for a nil or empty
entry, otherwise the running total of the stored durations divided (Go
integer division) by the count, together with the count. -/
def HistoryStore.GetBaseline (hs : HistoryStore) (serviceName : String) : Int × Int :=
  match getService hs.Services serviceName with
  | none => (0, 0)
  | some history =>
      if history.DataPoints.length = 0 then (0, 0)
      else
        let total := history.DataPoints.foldl (fun acc p => acc + p.ResponseTime) 0
        let count : Int := history.DataPoints.length
        (goDiv total count, count)

/-- CalculateTrend (export_csv.go:1258-1275). The code's `float64`
expression `float64(current-baseline) / float64(baseline) * 100` is
modelled as the exact rational value. -/
def CalculateTrend (current baseline : Int) (sampleCount : Int) : String :=
  if sampleCount < 3 then "BASELINE"
  else if baseline = 0 then "BASELINE"
  else
    let diff : ℚ := ((current : ℚ) - (baseline : ℚ)) / (baseline : ℚ) * 100
    if diff > 50 then "UP"
    else if diff < -50 then "DOWN"
    else "STEADY"

/-- Label the spec names `DEGRADED`: the code emits the string "UP" on
the `diff > 50` branch, which `printResult` renders red with an up
arrow (export_csv.go:1438-1441). -/
def trendDEGRADED : String := "UP"

/-- Label the spec names `IMPROVED`: the code emits the string "DOWN"
on the `diff < -50` branch (rendered green with a down arrow). -/
def trendIMPROVED : String := "DOWN"

/-- Label the spec names `STEADY`: the code string coincides. -/
def trendSTEADY : String := "STEADY"

/-- Label the spec names `BASELINE`: the code string coincides. -/
def trendBASELINE : String := "BASELINE"

/-- TestType (export_csv.go:1085-1091): a closed three-value enum whose
string values are "PING", "DNS", "HTTP". -/
inductive TestType where
  | ping
  | dns
  | http
  deriving DecidableEq, Repr

/-- String value of a `TestType` constant. -/
def TestType.str : TestType → String
  | .ping => "PING"
  | .dns => "DNS"
  | .http => "HTTP"

/-- CloudEndpoint (export_csv.go:1094-1103). -/
structure CloudEndpoint where
  Location : String
  Region : String
  Provider : String
  Hostname : String
  TestPing : Bool
  TestDNS : Bool
  TestHTTP : Bool
  deriving DecidableEq, Repr

/-- TestResult (export_csv.go:1105-1115). -/
structure TestResult where
  Endpoint : CloudEndpoint
  TestType : TestType
  Online : Bool
  ResponseTime : Int
  ResolvedIP : String
  Error : String
  Timestamp : Int
  Trend : String
  Baseline : Int
  deriving DecidableEq, Repr

/-- Outcome of the external probe capability for one task: the values
`runTest`'s switch statement (export_csv.go:1354-1389) leaves in its
locals before the common tail. Probing itself (DNS lookup, ping
subprocess, HTTP HEAD) is an external effect, so it enters the model
as data; on a failed probe the Go locals keep `online = false` and the
branch sets `errMsg`. -/
structure ProbeOutcome where
  online : Bool
  responseTime : Int
  resolvedIP : String
  errMsg : String
  deriving DecidableEq, Repr

/-- Service-key derivation (export_csv.go:1392):
`fmt.Sprintf("%s [%s] - %s", endpoint.Location, endpoint.Provider, testType)`. -/
def serviceKey (endpoint : CloudEndpoint) (testType : TestType) : String :=
  endpoint.Location ++ " [" ++ endpoint.Provider ++ "] - " ++ testType.str

/-- Deterministic tail of runTest (export_csv.go:1392-1416): derive the
service key, read the pre-update baseline and count, classify the
trend, append to history only when the probe succeeded, and emit the
result record. Returns the emitted `TestResult` and the store after
the call. -/
def runTest (endpoint : CloudEndpoint) (testType : TestType) (outcome : ProbeOutcome)
    (timestamp : Int) (history : HistoryStore) : TestResult × HistoryStore :=
  let key := serviceKey endpoint testType
  let bl := history.GetBaseline key
  let trend := CalculateTrend outcome.responseTime bl.1 bl.2
  let history₁ :=
    if outcome.online then history.AddDataPoint key timestamp outcome.responseTime
    else history
  ({ Endpoint := endpoint, TestType := testType, Online := outcome.online,
     ResponseTime := outcome.responseTime, ResolvedIP := outcome.resolvedIP,
     Error := outcome.errMsg, Timestamp := timestamp, Trend := trend,
     Baseline := bl.1 }, history₁)

/-- Tasks one endpoint contributes in a cycle (export_csv.go:1512-1525):
one per enabled flag, in the source's dispatch order DNS, Ping, HTTP. -/
def tasksFor (e : CloudEndpoint) : List (CloudEndpoint × TestType) :=
  (if e.TestDNS then [(e, TestType.dns)] else []) ++
  (if e.TestPing then [(e, TestType.ping)] else []) ++
  (if e.TestHTTP then [(e, TestType.http)] else [])

/-- Task expansion for a full cycle: every endpoint's enabled tasks. -/
def expandTasks (endpoints : List CloudEndpoint) : List (CloudEndpoint × TestType) :=
  endpoints.flatMap tasksFor

/-- One cycle's dispatch + collection (runHealthCheck,
export_csv.go:1505-1534): every expanded task runs `runTest` against the
shared store with its probe outcome. The store's mutex serialises all
store accesses; the model threads the store through the tasks in
emission order. Returns the collected results and the final store. -/
def runCycle (endpoints : List CloudEndpoint)
    (probe : CloudEndpoint → TestType → ProbeOutcome)
    (timestamp : Int) (hs : HistoryStore) : List TestResult × HistoryStore :=
  (expandTasks endpoints).foldl
    (fun acc t =>
      let r := runTest t.1 t.2 (probe t.1 t.2) timestamp acc.2
      (acc.1 ++ [r.1], r.2))
    ([], hs)

/-- Counters of runHealthCheck's aggregation loop (export_csv.go:1536-1556). -/
structure CycleStats where
  totalTests : Int
  successfulTests : Int
  totalResponseTime : Int
  deriving DecidableEq, Repr

/-- Aggregation loop over the collected results (export_csv.go:1541-1548):
every result bumps `totalTests`; only an online result bumps
`successfulTests` and adds its response time. -/
def cycleStats (results : List TestResult) : CycleStats :=
  results.foldl
    (fun s r =>
      { totalTests := s.totalTests + 1,
        successfulTests := if r.Online then s.successfulTests + 1 else s.successfulTests,
        totalResponseTime :=
          if r.Online then s.totalResponseTime + r.ResponseTime else s.totalResponseTime })
    { totalTests := 0, successfulTests := 0, totalResponseTime := 0 }

/-- avgResponseTime (export_csv.go:1576-1579): mean response time over
the successful tests, `0` when there were none. -/
def avgResponseTime (results : List TestResult) : Int :=
  let s := cycleStats results
  if s.successfulTests > 0 then goDiv s.totalResponseTime s.successfulTests else 0

/-- Durable snapshot value: the
`map[string][]struct{ Timestamp; ResponseTime int64 }` that
SaveToFile marshals and LoadFromFile unmarshals (export_csv.go:1156,
1188); the JSON byte encoding is the external `encoding/json` library. -/
abbrev RawSnapshot := List (String × List (Int × Int))

/-- Serialisation phase of SaveToFile (export_csv.go:1184-1205): per
service, the datapoints as (Timestamp, int64 ResponseTime) records;
writing the bytes out is external. -/
def HistoryStore.save (hs : HistoryStore) : RawSnapshot :=
  hs.Services.map fun s => (s.1, s.2.DataPoints.map fun p => (p.Timestamp, p.ResponseTime))

/-- What LoadFromFile's read-and-parse phase yields before any store
mutation: the file may be missing (`os.IsNotExist`), unreadable, its
content may fail `json.Unmarshal`, or it parses to a raw snapshot. -/
inductive LoadInput where
  | fileMissing
  | readError (msg : String)
  | malformed (msg : String)
  | parsed (raw : RawSnapshot)

/-- LoadFromFile (export_csv.go:1143-1181) over the outcome of the
external read/parse: a missing file returns nil with the store
untouched; a read or unmarshal error is returned before any mutation;
otherwise every parsed entry is rebuilt and installed under its key.
Returns the store after the call and the returned error (`none` = nil). -/
def HistoryStore.load (hs : HistoryStore) (input : LoadInput) : HistoryStore × Option String :=
  match input with
  | .fileMissing => (hs, none)
  | .readError msg => (hs, some msg)
  | .malformed msg => (hs, some msg)
  | .parsed raw =>
      (raw.foldl
        (fun acc entry =>
          { Services :=
              setService acc.Services entry.1
                { ServiceName := entry.1,
                  DataPoints := entry.2.map fun p => { Timestamp := p.1, ResponseTime := p.2 } } })
        hs,
       none)

/-- Stored measurement sequence for a key (empty for an absent key). -/
def storedSeq (hs : HistoryStore) (k : String) : List HistoricalDataPoint :=
  match getService hs.Services k with
  | none => []
  | some h => h.DataPoints

/-- Key set of a store, as the association list's key list. -/
def storeKeys (hs : HistoryStore) : List String := hs.Services.map Prod.fst

/-- Measurements a sequence of `AddDataPoint` calls adds for key `k`,
in call order; each call is a (key, timestamp, responseTime) triple. -/
def addedFor (k : String) (calls : List (String × Int × Int)) : List HistoricalDataPoint :=
  (calls.filter fun c => c.1 == k).map fun c => { Timestamp := c.2.1, ResponseTime := c.2.2 }

/-- Run a sequence of `AddDataPoint` calls on a fresh store. -/
def runAdds (calls : List (String × Int × Int)) : HistoryStore :=
  calls.foldl (fun hs c => hs.AddDataPoint c.1 c.2.1 c.2.2) NewHistoryStore

/-- Last `n` elements of a list (all of it when it is shorter). -/
def lastN (n : Nat) (l : List α) : List α := l.drop (l.length - n)

/-- Number of enabled test-kind flags of an endpoint. -/
def enabledCount (e : CloudEndpoint) : Nat :=
  (if e.TestDNS then 1 else 0) + (if e.TestPing then 1 else 0) + (if e.TestHTTP then 1 else 0)

section MapLemmas

lemma getService_setService (l : List (String × ServiceHistory)) (k k' : String)
    (v : ServiceHistory) :
    getService (setService l k v) k' = if k = k' then some v else getService l k' := by
  induction l with
  | nil =>
      by_cases h : k = k' <;> simp [setService, getService, h]
  | cons p rest ih =>
      obtain ⟨k₀, v₀⟩ := p
      by_cases h₀ : k₀ = k
      · subst h₀
        by_cases h : k₀ = k' <;> simp [setService, getService, h]
      · by_cases h : k₀ = k'
        · have hkk : ¬ k = k' := fun e => h₀ (h.trans e.symm)
          have hk'k : ¬ k' = k := fun e => hkk e.symm
          simp [setService, getService, h₀, h, hkk, hk'k]
        · simp [setService, getService, h₀, h, ih]

end MapLemmas

section WindowLemmas

lemma lastN_of_le {l : List α} {n : Nat} (h : l.length ≤ n) : lastN n l = l := by
  unfold lastN
  rw [Nat.sub_eq_zero_of_le h, List.drop_zero]

lemma lastN_length_le (n : Nat) (l : List α) : (lastN n l).length ≤ n := by
  unfold lastN
  rw [List.length_drop]
  omega

lemma lastN_drop {l : List α} {n d : Nat} (h : d + n ≤ l.length) :
    lastN n (l.drop d) = lastN n l := by
  unfold lastN
  rw [List.length_drop, List.drop_drop]
  congr 1
  omega

lemma lastN_lastN_append (n : Nat) (xs ys : List α) :
    lastN n (lastN n xs ++ ys) = lastN n (xs ++ ys) := by
  rcases le_or_lt xs.length n with h | h
  · rw [lastN_of_le h]
  · have hd : lastN n xs ++ ys = (xs ++ ys).drop (xs.length - n) := by
      unfold lastN
      rw [List.drop_append_of_le_length (by omega)]
    rw [hd, lastN_drop]
    rw [List.length_append]
    omega

/-- The `if len > 10` truncation in AddDataPoint always computes the
last ten entries, since `drop (len - 10)` is the identity when `len ≤ 10`. -/
lemma trunc_eq_lastN (l : List HistoricalDataPoint) :
    (if l.length > 10 then l.drop (l.length - 10) else l) = lastN 10 l := by
  by_cases h : l.length > 10
  · simp [h, lastN]
  · rw [if_neg h, lastN_of_le (by omega)]

/-- Effect of one AddDataPoint call on each key's stored sequence. -/
lemma storedSeq_AddDataPoint (hs : HistoryStore) (name : String) (ts rt : Int) (k : String) :
    storedSeq (hs.AddDataPoint name ts rt) k =
      if name = k then
        lastN 10 (storedSeq hs name ++ [{ Timestamp := ts, ResponseTime := rt }])
      else storedSeq hs k := by
  unfold HistoryStore.AddDataPoint storedSeq
  simp only [getService_setService]
  by_cases h : name = k
  · rw [if_pos h, if_pos h]
    cases hg : getService hs.Services name <;>
      (simp only [hg]; exact trunc_eq_lastN _)
  · rw [if_neg h, if_neg h]

end WindowLemmas

section WindowBound

lemma storedSeq_empty (k : String) : storedSeq NewHistoryStore k = [] := by
  simp [storedSeq, NewHistoryStore, getService]

lemma storedSeq_foldAdds (calls : List (String × Int × Int)) :
    ∀ (hs : HistoryStore) (k : String), (∀ k', (storedSeq hs k').length ≤ 10) →
      storedSeq (calls.foldl (fun hs c => hs.AddDataPoint c.1 c.2.1 c.2.2) hs) k =
        lastN 10 (storedSeq hs k ++ addedFor k calls) := by
  induction calls with
  | nil =>
      intro hs k hinv
      simp only [List.foldl_nil, addedFor, List.filter_nil, List.map_nil, List.append_nil]
      exact (lastN_of_le (hinv k)).symm
  | cons c rest ih =>
      intro hs k hinv
      rw [List.foldl_cons]
      have hinv' : ∀ k', (storedSeq (hs.AddDataPoint c.1 c.2.1 c.2.2) k').length ≤ 10 := by
        intro k'
        rw [storedSeq_AddDataPoint]
        by_cases h : c.1 = k'
        · rw [if_pos h]
          exact lastN_length_le _ _
        · rw [if_neg h]
          exact hinv k'
      rw [ih _ k hinv', storedSeq_AddDataPoint]
      by_cases h : c.1 = k
      · rw [if_pos h]
        have hadd : addedFor k (c :: rest) =
            { Timestamp := c.2.1, ResponseTime := c.2.2 } :: addedFor k rest := by
          simp [addedFor, List.filter_cons, h]
        rw [hadd, ← h, lastN_lastN_append, List.append_assoc, List.singleton_append]
      · rw [if_neg h]
        have hadd : addedFor k (c :: rest) = addedFor k rest := by
          simp [addedFor, List.filter_cons, h]
        rw [hadd]

/-- C1: starting from a fresh store, after any sequence of AddDataPoint
calls the stored sequence for each key is exactly the last (at most)
ten measurements added for that key, in insertion = chronological
order with the newest last, and its length never exceeds W = 10. -/
theorem window_bound (calls : List (String × Int × Int)) (k : String) :
    storedSeq (runAdds calls) k = lastN 10 (addedFor k calls)
    ∧ (storedSeq (runAdds calls) k).length ≤ 10 := by
  have h := storedSeq_foldAdds calls NewHistoryStore k
    (fun k' => by rw [storedSeq_empty]; simp)
  rw [storedSeq_empty, List.nil_append] at h
  rw [runAdds] at *
  refine ⟨h, ?_⟩
  rw [h]
  exact lastN_length_le _ _

end WindowBound

section Baseline

lemma foldl_add_responseTime (l : List HistoricalDataPoint) :
    ∀ acc : Int, l.foldl (fun acc p => acc + p.ResponseTime) acc =
      acc + (l.map HistoricalDataPoint.ResponseTime).sum := by
  induction l with
  | nil => intro acc; simp
  | cons p rest ih =>
      intro acc
      rw [List.foldl_cons, ih, List.map_cons, List.sum_cons]
      ring

/-- C2: GetBaseline returns (0, 0) for an absent or empty key and
otherwise the mean (Go integer division) of the stored durations with
the sample count. -/
theorem GetBaseline_mean (hs : HistoryStore) (k : String) :
    hs.GetBaseline k =
      if storedSeq hs k = [] then (0, 0)
      else (goDiv ((storedSeq hs k).map HistoricalDataPoint.ResponseTime).sum
              ((storedSeq hs k).length), ((storedSeq hs k).length : Int)) := by
  unfold HistoryStore.GetBaseline storedSeq
  cases hg : getService hs.Services k with
  | none => simp
  | some h =>
      by_cases he : h.DataPoints = []
      · simp [he]
      · have hlen : ¬ h.DataPoints.length = 0 := by simpa using he
        simp only [hlen, if_neg, if_false, he]
        rw [foldl_add_responseTime]
        simp

end Baseline

section Classifier

/-- C3: the classifier returns BASELINE when the sample count is below
3 or the baseline is zero, and otherwise classifies by the exact
relative delta with strict ±50 thresholds: DEGRADED exactly when
delta > 50, IMPROVED exactly when delta < −50, STEADY otherwise. -/
theorem CalculateTrend_spec (current baseline sampleCount : Int) :
    ((sampleCount < 3 ∨ baseline = 0) →
        CalculateTrend current baseline sampleCount = trendBASELINE)
    ∧ (3 ≤ sampleCount → baseline ≠ 0 →
        ((CalculateTrend current baseline sampleCount = trendDEGRADED ↔
            ((current : ℚ) - (baseline : ℚ)) / (baseline : ℚ) * 100 > 50)
        ∧ (CalculateTrend current baseline sampleCount = trendIMPROVED ↔
            ((current : ℚ) - (baseline : ℚ)) / (baseline : ℚ) * 100 < -50)
        ∧ (CalculateTrend current baseline sampleCount = trendSTEADY ↔
            (((current : ℚ) - (baseline : ℚ)) / (baseline : ℚ) * 100 ≤ 50 ∧
              -50 ≤ ((current : ℚ) - (baseline : ℚ)) / (baseline : ℚ) * 100)))) := by
  constructor
  · intro h
    unfold CalculateTrend trendBASELINE
    rcases h with h | h
    · rw [if_pos h]
    · by_cases h3 : sampleCount < 3
      · rw [if_pos h3]
      · rw [if_neg h3, if_pos h]
  · intro h3 hb
    unfold CalculateTrend trendDEGRADED trendIMPROVED trendSTEADY
    rw [if_neg (by omega), if_neg hb]
    by_cases h1 : ((current : ℚ) - (baseline : ℚ)) / (baseline : ℚ) * 100 > 50
    · rw [if_pos h1]
      refine ⟨⟨fun _ => h1, fun _ => rfl⟩,
        ⟨fun he => absurd he (by decide), fun hc => by exfalso; linarith⟩,
        ⟨fun he => absurd he (by decide), fun hc => by exfalso; linarith [hc.1]⟩⟩
    · rw [if_neg h1]
      by_cases h2 : ((current : ℚ) - (baseline : ℚ)) / (baseline : ℚ) * 100 < -50
      · rw [if_pos h2]
        refine ⟨⟨fun he => absurd he (by decide), fun hc => by exfalso; linarith⟩,
          ⟨fun _ => h2, fun _ => rfl⟩,
          ⟨fun he => absurd he (by decide), fun hc => by exfalso; linarith [hc.2]⟩⟩
      · rw [if_neg h2]
        refine ⟨⟨fun he => absurd he (by decide), fun hc => absurd hc h1⟩,
          ⟨fun he => absurd he (by decide), fun hc => absurd hc h2⟩,
          ⟨fun _ => ⟨not_lt.mp h1, not_lt.mp h2⟩, fun _ => rfl⟩⟩

/-- Witness for C3 at concrete inputs: a 200 % regression with five
samples is DEGRADED, and a zero baseline yields BASELINE. -/
theorem CalculateTrend_spec_witness :
    CalculateTrend 300 100 5 = trendDEGRADED ∧ CalculateTrend 100 0 5 = trendBASELINE := by
  refine ⟨((CalculateTrend_spec 300 100 5).2 (by norm_num) (by norm_num)).1.mpr (by norm_num),
    (CalculateTrend_spec 100 0 5).1 (Or.inr rfl)⟩

end Classifier

section ClassifierVectors

/-- C4 counterexample: at (150, 100, 5) the relative delta is exactly
+50, the code's `diff > 50` test is strict, so the classifier does not
return the DEGRADED label. -/
theorem classify_150_not_degraded : ¬ (CalculateTrend 150 100 5 = trendDEGRADED) := by
  unfold CalculateTrend trendDEGRADED
  norm_num
  decide

/-- C4 amended: classify(150,100,5) = STEADY (a delta of exactly +50 %
is not strictly above the threshold); the other four vectors hold as
stated. -/
theorem classify_vectors :
    CalculateTrend 150 100 5 = trendSTEADY
    ∧ CalculateTrend 149 100 5 = trendSTEADY
    ∧ CalculateTrend 40 100 5 = trendIMPROVED
    ∧ CalculateTrend 100 100 2 = trendBASELINE
    ∧ CalculateTrend 100 0 5 = trendBASELINE := by
  unfold CalculateTrend trendSTEADY trendIMPROVED trendBASELINE
  norm_num

end ClassifierVectors

section FailureIsolation

lemma cycleStats_foldl (rs : List TestResult) :
    ∀ s : CycleStats,
      rs.foldl
        (fun s r =>
          { totalTests := s.totalTests + 1,
            successfulTests := if r.Online then s.successfulTests + 1 else s.successfulTests,
            totalResponseTime :=
              if r.Online then s.totalResponseTime + r.ResponseTime
              else s.totalResponseTime }) s =
      { totalTests := s.totalTests + (rs.length : Int),
        successfulTests := s.successfulTests + ((rs.filter fun r => r.Online).length : Int),
        totalResponseTime :=
          s.totalResponseTime + ((rs.filter fun r => r.Online).map TestResult.ResponseTime).sum } := by
  induction rs with
  | nil => intro s; simp
  | cons r rest ih =>
      intro s
      rw [List.foldl_cons, ih]
      cases hr : r.Online <;> simp [List.filter_cons, hr] <;> and_intros <;> ring

lemma cycleStats_eq (rs : List TestResult) :
    cycleStats rs =
      { totalTests := (rs.length : Int),
        successfulTests := ((rs.filter fun r => r.Online).length : Int),
        totalResponseTime := ((rs.filter fun r => r.Online).map TestResult.ResponseTime).sum } := by
  unfold cycleStats
  rw [cycleStats_foldl]
  simp

/-- C5: a failed probe's task leaves the history store untouched, emits
a result that is offline and carries the probe's error detail, and
inserting that result anywhere into a cycle's result list changes
neither the success count, nor the successes' total response time, nor
the mean response time — only the total test count, by one. -/
theorem failure_isolation (endpoint : CloudEndpoint) (testType : TestType)
    (outcome : ProbeOutcome) (ts : Int) (hs : HistoryStore)
    (h : outcome.online = false) :
    (runTest endpoint testType outcome ts hs).2 = hs
    ∧ (runTest endpoint testType outcome ts hs).1.Online = false
    ∧ (runTest endpoint testType outcome ts hs).1.Error = outcome.errMsg
    ∧ ∀ rs₁ rs₂ : List TestResult,
        (cycleStats (rs₁ ++ (runTest endpoint testType outcome ts hs).1 :: rs₂)).successfulTests =
          (cycleStats (rs₁ ++ rs₂)).successfulTests
        ∧ (cycleStats (rs₁ ++ (runTest endpoint testType outcome ts hs).1 :: rs₂)).totalResponseTime =
          (cycleStats (rs₁ ++ rs₂)).totalResponseTime
        ∧ (cycleStats (rs₁ ++ (runTest endpoint testType outcome ts hs).1 :: rs₂)).totalTests =
          (cycleStats (rs₁ ++ rs₂)).totalTests + 1
        ∧ avgResponseTime (rs₁ ++ (runTest endpoint testType outcome ts hs).1 :: rs₂) =
          avgResponseTime (rs₁ ++ rs₂) := by
  have hr2 : (runTest endpoint testType outcome ts hs).2 = hs := by
    unfold runTest
    simp [h]
  have hron : (runTest endpoint testType outcome ts hs).1.Online = false := by
    unfold runTest
    simp [h]
  have hrerr : (runTest endpoint testType outcome ts hs).1.Error = outcome.errMsg := by
    unfold runTest
    rfl
  refine ⟨hr2, hron, hrerr, ?_⟩
  intro rs₁ rs₂
  have hfil : (rs₁ ++ (runTest endpoint testType outcome ts hs).1 :: rs₂).filter
        (fun r => r.Online) = (rs₁ ++ rs₂).filter (fun r => r.Online) := by
    rw [List.filter_append, List.filter_cons, List.filter_append]
    simp [hron]
  have hsucc : (cycleStats (rs₁ ++ (runTest endpoint testType outcome ts hs).1 :: rs₂)).successfulTests =
      (cycleStats (rs₁ ++ rs₂)).successfulTests := by
    rw [cycleStats_eq, cycleStats_eq, hfil]
  have htrt : (cycleStats (rs₁ ++ (runTest endpoint testType outcome ts hs).1 :: rs₂)).totalResponseTime =
      (cycleStats (rs₁ ++ rs₂)).totalResponseTime := by
    rw [cycleStats_eq, cycleStats_eq, hfil]
  refine ⟨hsucc, htrt, ?_, ?_⟩
  · rw [cycleStats_eq, cycleStats_eq]
    simp only [List.length_append, List.length_cons]
    push_cast
    ring
  · simp only [avgResponseTime]
    rw [hsucc, htrt]

/-- Concrete endpoint used by the witnesses below. -/
def sampleEndpoint : CloudEndpoint :=
  { Location := "N. Virginia", Region := "us-east-1", Provider := "AWS",
    Hostname := "ec2.us-east-1.amazonaws.com", TestPing := true, TestDNS := true,
    TestHTTP := false }

/-- Concrete failed probe outcome used by the witnesses below. -/
def failedOutcome : ProbeOutcome :=
  { online := false, responseTime := 0, resolvedIP := "", errMsg := "ping failed" }

/-- Witness for C5: a concrete failed ping task against a fresh store
leaves the store unchanged and does not enter the success count. -/
theorem failure_isolation_witness :
    failedOutcome.online = false
    ∧ (runTest sampleEndpoint TestType.ping failedOutcome 7 NewHistoryStore).2 = NewHistoryStore
    ∧ (cycleStats ([] ++ (runTest sampleEndpoint TestType.ping failedOutcome 7 NewHistoryStore).1 :: [])).successfulTests =
        (cycleStats ([] ++ [])).successfulTests := by
  have hth := failure_isolation sampleEndpoint TestType.ping failedOutcome 7 NewHistoryStore rfl
  exact ⟨rfl, hth.1, (hth.2.2.2 [] []).1⟩

end FailureIsolation

section SnapshotRoundTrip

lemma setService_not_mem (l : List (String × ServiceHistory)) (k : String)
    (v : ServiceHistory) (h : k ∉ l.map Prod.fst) : setService l k v = l ++ [(k, v)] := by
  induction l with
  | nil => rfl
  | cons p rest ih =>
      have h₁ : ¬ p.1 = k := by
        intro e
        exact h (by simp [e])
      have h₂ : k ∉ rest.map Prod.fst := by
        intro hm
        exact h (by simp [hm])
      obtain ⟨k₀, v₀⟩ := p
      simp only [setService, if_neg h₁, List.cons_append, List.cons.injEq, true_and]
      exact ih h₂

/-- Entry conversion LoadFromFile applies to each parsed record. -/
def loadEntry (e : String × List (Int × Int)) : String × ServiceHistory :=
  (e.1, { ServiceName := e.1,
          DataPoints := e.2.map fun p => { Timestamp := p.1, ResponseTime := p.2 } })

lemma load_fold (raw : RawSnapshot) :
    ∀ hs : HistoryStore,
      (raw.map Prod.fst).Nodup →
      (∀ k ∈ raw.map Prod.fst, k ∉ storeKeys hs) →
      (hs.load (.parsed raw)).1.Services = hs.Services ++ raw.map loadEntry := by
  induction raw with
  | nil => intro hs _ _; simp [HistoryStore.load]
  | cons e rest ih =>
      intro hs hnd hdisj
      have hhead : e.1 ∉ storeKeys hs := hdisj e.1 (by simp)
      have hndrest : (rest.map Prod.fst).Nodup := by
        rw [List.map_cons, List.nodup_cons] at hnd
        exact hnd.2
      have hheadrest : e.1 ∉ rest.map Prod.fst := by
        rw [List.map_cons, List.nodup_cons] at hnd
        exact hnd.1
      have hset : setService hs.Services e.1
          { ServiceName := e.1,
            DataPoints := e.2.map fun p => { Timestamp := p.1, ResponseTime := p.2 } } =
          hs.Services ++ [loadEntry e] := by
        rw [setService_not_mem hs.Services e.1 _ hhead]
        rfl
      have hstep : (hs.load (.parsed (e :: rest))).1 =
          (({ Services := hs.Services ++ [loadEntry e] } : HistoryStore).load (.parsed rest)).1 := by
        simp only [HistoryStore.load, List.foldl_cons]
        rw [hset]
      rw [hstep, ih _ hndrest ?_]
      · simp [List.append_assoc]
      · intro k hk
        have hk₁ : k ∉ storeKeys hs := hdisj k (by simp [hk])
        have hk₂ : ¬ k = e.1 := fun hkk => hheadrest (hkk ▸ hk)
        simp only [storeKeys, List.map_append, List.mem_append, List.map_cons, List.map_nil,
          List.mem_singleton] at hk₁ ⊢
        rintro (hmem | hmem)
        · exact hk₁ hmem
        · exact hk₂ hmem

lemma storedSeq_loadEntry_map (l : List (String × ServiceHistory)) (k : String) :
    storedSeq { Services := (l.map fun s =>
        (s.1, s.2.DataPoints.map fun p => (p.Timestamp, p.ResponseTime))).map loadEntry } k =
      storedSeq { Services := l } k := by
  induction l with
  | nil => rfl
  | cons p rest ih =>
      obtain ⟨k₀, v₀⟩ := p
      by_cases h : k₀ = k
      · simp only [storedSeq, List.map_cons, loadEntry, getService, if_pos h]
        simp only [List.map_map]
        have hid : ((fun p : Int × Int =>
            ({ Timestamp := p.1, ResponseTime := p.2 } : HistoricalDataPoint)) ∘
              fun p : HistoricalDataPoint => (p.Timestamp, p.ResponseTime)) = id :=
          funext fun p => rfl
        rw [hid, List.map_id]
      · simp only [storedSeq, List.map_cons, loadEntry, getService, if_neg h]
        exact ih

/-- C6: saving a store and loading the snapshot into a fresh store
reproduces the same key set and, for every key, the same stored
(timestamp, duration) measurement sequence. The hypothesis records
that a Go map's keys are pairwise distinct. -/
theorem save_load_roundtrip (hs : HistoryStore) (h : (storeKeys hs).Nodup) :
    storeKeys (NewHistoryStore.load (.parsed hs.save)).1 = storeKeys hs
    ∧ ∀ k, storedSeq (NewHistoryStore.load (.parsed hs.save)).1 k = storedSeq hs k := by
  have hkeys : hs.save.map Prod.fst = storeKeys hs := by
    simp [HistoryStore.save, storeKeys, List.map_map, Function.comp]
  have hnd : (hs.save.map Prod.fst).Nodup := by rw [hkeys]; exact h
  have hdisj : ∀ k ∈ hs.save.map Prod.fst, k ∉ storeKeys NewHistoryStore := by
    intro k _
    simp [storeKeys, NewHistoryStore]
  have hserv : (NewHistoryStore.load (.parsed hs.save)).1.Services = hs.save.map loadEntry := by
    rw [load_fold hs.save NewHistoryStore hnd hdisj]
    rfl
  constructor
  · rw [storeKeys, hserv, List.map_map]
    have : (Prod.fst ∘ loadEntry) = (Prod.fst : String × List (Int × Int) → String) := by
      funext e
      rfl
    rw [this, hkeys]
  · intro k
    have hsplit : (NewHistoryStore.load (.parsed hs.save)).1 =
        { Services := hs.save.map loadEntry } := by
      cases hload : (NewHistoryStore.load (.parsed hs.save)).1
      simp only at hserv ⊢
      rw [← hserv, hload]
    rw [hsplit]
    have := storedSeq_loadEntry_map hs.Services k
    simpa [HistoryStore.save] using this

/-- Witness for C6: a concrete two-service store round-trips. -/
theorem save_load_roundtrip_witness :
    (storeKeys (runAdds [("a", 1, 10), ("b", 2, 20)])).Nodup
    ∧ storeKeys (NewHistoryStore.load
        (.parsed (runAdds [("a", 1, 10), ("b", 2, 20)]).save)).1 =
      storeKeys (runAdds [("a", 1, 10), ("b", 2, 20)]) := by
  refine ⟨by decide, (save_load_roundtrip (runAdds [("a", 1, 10), ("b", 2, 20)]) (by decide)).1⟩

end SnapshotRoundTrip

section LoadErrors

/-- C7: a load that finds no snapshot file returns nil and leaves the
store as it was — a fresh store stays empty — while a load whose
content fails to parse returns that error to its caller. -/
theorem load_missing_and_malformed :
    NewHistoryStore.load .fileMissing = (NewHistoryStore, none)
    ∧ (∀ hs : HistoryStore, hs.load .fileMissing = (hs, none))
    ∧ (∀ (hs : HistoryStore) (msg : String), (hs.load (.malformed msg)).2 = some msg) :=
  ⟨rfl, fun _ => rfl, fun _ _ => rfl⟩

/-- C10: a load whose content fails `json.Unmarshal` returns before the
per-key installation loop runs, so the store contents after the failed
call are exactly the contents before it (never partially populated);
the same holds for a failed file read. -/
theorem load_malformed_no_mutation (hs : HistoryStore) (msg : String) :
    (hs.load (.malformed msg)).1 = hs ∧ (hs.load (.readError msg)).1 = hs :=
  ⟨rfl, rfl⟩

end LoadErrors

section CycleCompleteness

lemma runCycle_fold_length (tasks : List (CloudEndpoint × TestType))
    (probe : CloudEndpoint → TestType → ProbeOutcome) (ts : Int) :
    ∀ acc : List TestResult × HistoryStore,
      (tasks.foldl
        (fun acc t =>
          let r := runTest t.1 t.2 (probe t.1 t.2) ts acc.2
          (acc.1 ++ [r.1], r.2)) acc).1.length = acc.1.length + tasks.length := by
  induction tasks with
  | nil => intro acc; simp
  | cons t rest ih =>
      intro acc
      rw [List.foldl_cons, ih]
      simp
      omega

lemma tasksFor_length (e : CloudEndpoint) : (tasksFor e).length = enabledCount e := by
  obtain ⟨loc, reg, prov, host, tp, td, th⟩ := e
  cases td <;> cases tp <;> cases th <;> simp [tasksFor, enabledCount]

lemma expandTasks_length (endpoints : List CloudEndpoint) :
    (expandTasks endpoints).length = (endpoints.map enabledCount).sum := by
  induction endpoints with
  | nil => rfl
  | cons e rest ih =>
      unfold expandTasks at *
      rw [List.flatMap_cons, List.length_append, ih, List.map_cons, List.sum_cons,
        tasksFor_length]

/-- C8: one cycle produces exactly one probe result per enabled
test-kind flag — M results when the endpoints carry M enabled flags in
total — and an endpoint with no enabled flags contributes zero tasks
without being an error. -/
theorem cycle_completeness (endpoints : List CloudEndpoint)
    (probe : CloudEndpoint → TestType → ProbeOutcome) (ts : Int) (hs : HistoryStore) :
    (runCycle endpoints probe ts hs).1.length = (endpoints.map enabledCount).sum
    ∧ ∀ loc reg prov host, tasksFor
        { Location := loc, Region := reg, Provider := prov, Hostname := host,
          TestPing := false, TestDNS := false, TestHTTP := false } = [] := by
  constructor
  · unfold runCycle
    rw [runCycle_fold_length]
    simp [expandTasks_length]
  · intro loc reg prov host
    rfl

end CycleCompleteness

section FrameEffects

/-- State-transformer view of the Go method call `hs.GetBaseline(k)`
(export_csv.go:1239-1255): the method locks, reads, computes, and
returns without assigning to any field of `hs`, so the post-state is
the receiver unchanged. -/
def HistoryStore.GetBaselineCall (hs : HistoryStore) (k : String) :
    HistoryStore × (Int × Int) := (hs, hs.GetBaseline k)

/-- C9: AddDataPoint for one key leaves every other key's map entry
unchanged, and a GetBaseline call leaves the entire store unchanged. -/
theorem frame_effects (hs : HistoryStore) (k k' : String) (ts rt : Int) (h : k' ≠ k) :
    getService (hs.AddDataPoint k ts rt).Services k' = getService hs.Services k'
    ∧ ∀ k₂, (hs.GetBaselineCall k₂).1 = hs := by
  constructor
  · unfold HistoryStore.AddDataPoint
    simp only [getService_setService]
    rw [if_neg (fun e => h e.symm)]
  · intro k₂
    rfl

/-- Witness for C9 at the concrete keys "a" ≠ "b" on a concrete store. -/
theorem frame_effects_witness :
    ("b" : String) ≠ "a"
    ∧ getService ((runAdds [("a", 1, 10)]).AddDataPoint "a" 2 20).Services "b" =
        getService (runAdds [("a", 1, 10)]).Services "b" :=
  ⟨by decide, (frame_effects (runAdds [("a", 1, 10)]) "a" "b" 2 20 (by decide)).1⟩

end FrameEffects

end HHM
